import Mathlib

/-!
Verification development for the sns-auto-publisher batch system.

The TypeScript sources are shallowly embedded:
- `src/types/index.ts` data model becomes Lean structures;
- the pure success computation `isAllSuccess` (src/index.ts) is a Lean function;
- each platform publisher (`uploadToYouTube`, `uploadToTikTok`,
  `uploadToInstagram`, `uploadToX`) is embedded with its network call
  abstracted into an oracle `Option String` (`none` = the call completed,
  `some msg` = the call threw an exception with message `msg`; the
  try/catch of the source converts the exception into a failed result);
- the per-item driver loop of `main` (src/index.ts, Phase 3 and 4) becomes
  `processItem`, which additionally records an event trace (publisher
  invocations, durable status writes, the move-to-done call) so that the
  ordering claims are statable;
- the metadata validation of `fetchJsonContent` and the pairing loop of
  `fetchFilePairs` (src/services/drive.ts) are embedded over a small JSON
  value type, and `runBatch` embeds the batch skeleton of `main`
  (fetch pairs, per-item try/catch, top-level catch with exit code 1).

JavaScript strings are modelled as Lean `String`s; truthiness of JSON
values follows the JavaScript rules for the constructors we model.
-/

namespace SNS

/-- Platform identifiers, from src/types/index.ts (`Platform`). -/
inductive Platform
  | youtube
  | tiktok
  | instagram
  | x
deriving DecidableEq, Repr

/-- Per-platform upload flags, from src/types/index.ts (`UploadStatus`). -/
structure UploadStatus where
  youtube : Bool
  tiktok : Bool
  instagram : Bool
  x : Bool
deriving DecidableEq, Repr

/-- Field accessor for `UploadStatus` by platform (spec-side helper). -/
def UploadStatus.get (s : UploadStatus) : Platform → Bool
  | Platform.youtube => s.youtube
  | Platform.tiktok => s.tiktok
  | Platform.instagram => s.instagram
  | Platform.x => s.x

/-- Metadata record stored next to each video, from src/types/index.ts
(`PostMetadata`). -/
structure PostMetadata where
  title : String
  description : String
  tags : List String
  upload_status : UploadStatus
deriving DecidableEq, Repr

/-- Result of one platform upload, from src/types/index.ts (`UploadResult`). -/
structure UploadResult where
  platform : Platform
  success : Bool
  skipped : Bool
  error : Option String := none
deriving DecidableEq, Repr

/-- X credentials, from src/types/index.ts (`XConfig`). -/
structure XConfig where
  apiKey : String
  apiSecret : String
  accessToken : String
  accessTokenSecret : String
deriving DecidableEq, Repr

/-- Overall success computation, from src/index.ts (`isAllSuccess`,
lines 32-44): skipped results are ignored, X results are ignored while X is
disabled, any remaining failure forces overall failure. -/
def isAllSuccess (results : List UploadResult) (isXEnabled : Bool) : Bool :=
  match results with
  | [] => true
  | result :: rest =>
    if result.skipped then isAllSuccess rest isXEnabled
    else if result.platform == Platform.x && !isXEnabled then isAllSuccess rest isXEnabled
    else if !result.success then false
    else isAllSuccess rest isXEnabled

/-- Outcome of the network/API portion of one publish attempt, as seen
through the publisher's try/catch: `none` means the try block completed,
`some msg` means it threw an exception whose message is `msg`. -/
abbrev AttemptOutcome := Option String

/-- YouTube publisher, from src/services/youtube.ts (`uploadToYouTube`):
skip (success, skipped) when the status flag is already true, otherwise the
try block either succeeds or its exception is caught into a failed result. -/
def uploadToYouTube (attempt : AttemptOutcome) (metadata : PostMetadata) : UploadResult :=
  if metadata.upload_status.youtube then
    { platform := Platform.youtube, success := true, skipped := true }
  else
    match attempt with
    | none => { platform := Platform.youtube, success := true, skipped := false }
    | some errorMessage =>
      { platform := Platform.youtube, success := false, skipped := false,
        error := some errorMessage }

/-- TikTok publisher, from src/services/tiktok.ts (`uploadToTikTok`). -/
def uploadToTikTok (attempt : AttemptOutcome) (metadata : PostMetadata) : UploadResult :=
  if metadata.upload_status.tiktok then
    { platform := Platform.tiktok, success := true, skipped := true }
  else
    match attempt with
    | none => { platform := Platform.tiktok, success := true, skipped := false }
    | some errorMessage =>
      { platform := Platform.tiktok, success := false, skipped := false,
        error := some errorMessage }

/-- Instagram publisher, from src/services/instagram.ts (`uploadToInstagram`). -/
def uploadToInstagram (attempt : AttemptOutcome) (metadata : PostMetadata) : UploadResult :=
  if metadata.upload_status.instagram then
    { platform := Platform.instagram, success := true, skipped := true }
  else
    match attempt with
    | none => { platform := Platform.instagram, success := true, skipped := false }
    | some errorMessage =>
      { platform := Platform.instagram, success := false, skipped := false,
        error := some errorMessage }

/-- X publisher, from src/services/x.ts (`uploadToX`): skip with
success=false when X is disabled or no config is present, skip with
success=true when the status flag is already true, otherwise attempt. -/
def uploadToX (config : Option XConfig) (isXEnabled : Bool) (attempt : AttemptOutcome)
    (metadata : PostMetadata) : UploadResult :=
  if !isXEnabled || config.isNone then
    { platform := Platform.x, success := false, skipped := true }
  else if metadata.upload_status.x then
    { platform := Platform.x, success := true, skipped := true }
  else
    match attempt with
    | none => { platform := Platform.x, success := true, skipped := false }
    | some errorMessage =>
      { platform := Platform.x, success := false, skipped := false,
        error := some errorMessage }

/-- Per-item oracle: one attempt outcome per platform's network call. -/
structure AttemptEnv where
  ytAttempt : AttemptOutcome
  ttAttempt : AttemptOutcome
  igAttempt : AttemptOutcome
  xAttempt : AttemptOutcome
deriving DecidableEq, Repr

/-- Observable events of one item's run, used to state ordering claims:
`publishCall p` marks the driver invoking platform p's publisher,
`statusWrite m` marks the durable `updateJsonStatus` write of metadata m,
`moveToDone` marks the `moveFilesToDone` call. -/
inductive Event
  | publishCall (p : Platform)
  | statusWrite (m : PostMetadata)
  | moveToDone
deriving DecidableEq, Repr

/-- Setting one platform's flag to true, as done inline by the driver
(src/index.ts lines 100, 108, 117, 125). -/
def markDone (p : Platform) (m : PostMetadata) : PostMetadata :=
  match p with
  | Platform.youtube => { m with upload_status := { m.upload_status with youtube := true } }
  | Platform.tiktok => { m with upload_status := { m.upload_status with tiktok := true } }
  | Platform.instagram => { m with upload_status := { m.upload_status with instagram := true } }
  | Platform.x => { m with upload_status := { m.upload_status with x := true } }

/-- The post-publish block the driver runs after each platform
(src/index.ts lines 99-102 and its three copies): on a successful,
non-skipped result, set the flag and perform the durable status write;
otherwise do nothing. Returns the metadata afterwards and the emitted
events. -/
def publishStep (result : UploadResult) (p : Platform) (m : PostMetadata) :
    PostMetadata × List Event :=
  if result.success && !result.skipped then
    (markDone p m, [Event.statusWrite (markDone p m)])
  else
    (m, [])

/-- Result of processing one item through Phase 3 and the disposition part
of Phase 4. -/
structure ItemRun where
  finalMetadata : PostMetadata
  results : List UploadResult
  allSuccess : Bool
  trace : List Event
deriving DecidableEq, Repr

/-- The per-item driver, from src/index.ts lines 88-148: publish to
YouTube, TikTok, Instagram, X in this order, eagerly persisting the status
after each successful non-skipped upload, then compute `allSuccess` and
move the files to the done folder exactly when it holds. -/
def processItem (xConfig : Option XConfig) (isXEnabled : Bool) (env : AttemptEnv)
    (metadata : PostMetadata) : ItemRun :=
  let ytResult := uploadToYouTube env.ytAttempt metadata
  let s1 := publishStep ytResult Platform.youtube metadata
  let ttResult := uploadToTikTok env.ttAttempt s1.1
  let s2 := publishStep ttResult Platform.tiktok s1.1
  let igResult := uploadToInstagram env.igAttempt s2.1
  let s3 := publishStep igResult Platform.instagram s2.1
  let xResult := uploadToX xConfig isXEnabled env.xAttempt s3.1
  let s4 := publishStep xResult Platform.x s3.1
  let results := [ytResult, ttResult, igResult, xResult]
  let allSuccess := isAllSuccess results isXEnabled
  { finalMetadata := s4.1
    results := results
    allSuccess := allSuccess
    trace :=
      Event.publishCall Platform.youtube ::
        (s1.2 ++ (Event.publishCall Platform.tiktok ::
          (s2.2 ++ (Event.publishCall Platform.instagram ::
            (s3.2 ++ (Event.publishCall Platform.x ::
              (s4.2 ++ (if allSuccess then [Event.moveToDone] else [])))))))) }

/-- A result that was an actual, successful upload this run. -/
def successNotSkipped (r : UploadResult) : Bool :=
  r.success && !r.skipped

/-- `isAllSuccess` is the conjunction, over the result list, of
"skipped, or an X result while X is disabled, or successful". -/
theorem isAllSuccess_eq_all (results : List UploadResult) (xe : Bool) :
    isAllSuccess results xe =
      results.all (fun r => r.skipped || (r.platform == Platform.x && !xe) || r.success) := by
  induction results with
  | nil => simp [isAllSuccess]
  | cons r rest ih =>
    rw [List.all_cons, ← ih]
    cases hs : r.skipped <;> cases hx : (r.platform == Platform.x && !xe) <;>
      cases hsu : r.success <;> simp [isAllSuccess, hs, hx, hsu]

/-- `isAllSuccess` returns false exactly when some result is not skipped,
not an X result while X is disabled, and not successful. -/
theorem isAllSuccess_eq_false_iff (results : List UploadResult) (xe : Bool) :
    isAllSuccess results xe = false ↔
      ∃ r ∈ results, r.skipped = false ∧ ¬(r.platform = Platform.x ∧ xe = false) ∧
        r.success = false := by
  rw [isAllSuccess_eq_all]
  simp only [List.all_eq_false]
  constructor
  · rintro ⟨r, hr, h⟩
    refine ⟨r, hr, ?_, ?_, ?_⟩
    · revert h; cases r.skipped <;> simp
    · rintro ⟨hp, hxe⟩
      revert h; simp [hp, hxe]
    · revert h; cases r.success <;> simp
  · rintro ⟨r, hr, h1, h2, h3⟩
    refine ⟨r, hr, ?_⟩
    simp only [h1, h3, Bool.false_or, Bool.or_false, Bool.and_eq_true, beq_iff_eq,
      Bool.not_eq_true', not_and]
    intro hp
    cases hxe : xe
    · exact absurd ⟨hp, hxe⟩ h2
    · simp

/-- Claim C1: `isAllSuccess results isXEnabled` returns false iff some
result in the list has skipped=false, is not an X result while X is
disabled, and has success=false; in every other case (including the empty
list or an all-skipped list) it returns true. In particular, for the four
platforms: all three others succeeding with X skipped-as-disabled gives
true; one failure among them gives false; all-skipped gives true; X
enabled with an X failure gives false. -/
theorem claim_C1 :
    (∀ (results : List UploadResult) (xe : Bool),
      isAllSuccess results xe = false ↔
        ∃ r ∈ results, r.skipped = false ∧ ¬(r.platform = Platform.x ∧ xe = false) ∧
          r.success = false) ∧
    isAllSuccess
      [{ platform := Platform.youtube, success := true, skipped := false },
       { platform := Platform.tiktok, success := true, skipped := false },
       { platform := Platform.instagram, success := true, skipped := false },
       { platform := Platform.x, success := false, skipped := true }] false = true ∧
    isAllSuccess
      [{ platform := Platform.youtube, success := true, skipped := false },
       { platform := Platform.tiktok, success := false, skipped := false },
       { platform := Platform.instagram, success := true, skipped := false },
       { platform := Platform.x, success := false, skipped := true }] false = false ∧
    isAllSuccess
      [{ platform := Platform.youtube, success := true, skipped := true },
       { platform := Platform.tiktok, success := true, skipped := true },
       { platform := Platform.instagram, success := true, skipped := true },
       { platform := Platform.x, success := false, skipped := true }] false = true ∧
    isAllSuccess
      [{ platform := Platform.youtube, success := true, skipped := false },
       { platform := Platform.tiktok, success := true, skipped := false },
       { platform := Platform.instagram, success := true, skipped := false },
       { platform := Platform.x, success := false, skipped := false }] true = false :=
  ⟨isAllSuccess_eq_false_iff, by decide, by decide, by decide, by decide⟩

/-- On a successful non-skipped result, `publishStep` marks the platform
done and emits exactly the durable status write of the updated record. -/
theorem publishStep_of_true (r : UploadResult) (p : Platform) (m : PostMetadata)
    (h : successNotSkipped r = true) :
    publishStep r p m = (markDone p m, [Event.statusWrite (markDone p m)]) := by
  unfold publishStep
  rw [show (r.success && !r.skipped) = true from h]
  rfl

/-- On a failed or skipped result, `publishStep` leaves the metadata alone
and emits no event. -/
theorem publishStep_of_false (r : UploadResult) (p : Platform) (m : PostMetadata)
    (h : successNotSkipped r = false) :
    publishStep r p m = (m, []) := by
  unfold publishStep
  rw [show (r.success && !r.skipped) = false from h]
  rfl

/-- `markDone` sets the flag of the platform it marks. -/
theorem markDone_get_self (p : Platform) (m : PostMetadata) :
    (markDone p m).upload_status.get p = true := by
  cases p <;> rfl

/-- `markDone` leaves every other platform's flag unchanged. -/
theorem markDone_get_other (p q : Platform) (m : PostMetadata) (h : q ≠ p) :
    (markDone p m).upload_status.get q = m.upload_status.get q := by
  cases p <;> cases q <;> first | rfl | exact absurd rfl h

/-- Claim C2: for every platform in the fixed order YouTube, TikTok,
Instagram, X whose outcome is successful and not skipped, the driver marks
the platform done and performs the durable status write before the publish
call for the next platform begins (the write events for platform k sit
strictly between the publish calls for k and k+1 in the trace), and no
status write is emitted for a failed or skipped outcome (the segment is
empty, and the trailing segment contains only the move-to-done event). -/
theorem claim_C2 (xc : Option XConfig) (xe : Bool) (env : AttemptEnv) (m : PostMetadata) :
    ∃ (r1 r2 r3 r4 : UploadResult) (w1 w2 w3 w4 tl : List Event),
      (processItem xc xe env m).results = [r1, r2, r3, r4] ∧
      (processItem xc xe env m).trace =
        Event.publishCall Platform.youtube ::
          (w1 ++ (Event.publishCall Platform.tiktok ::
            (w2 ++ (Event.publishCall Platform.instagram ::
              (w3 ++ (Event.publishCall Platform.x :: (w4 ++ tl))))))) ∧
      (∀ e ∈ tl, e = Event.moveToDone) ∧
      (successNotSkipped r1 = true →
        ∃ m1, w1 = [Event.statusWrite m1] ∧ m1.upload_status.youtube = true) ∧
      (successNotSkipped r1 = false → w1 = []) ∧
      (successNotSkipped r2 = true →
        ∃ m2, w2 = [Event.statusWrite m2] ∧ m2.upload_status.tiktok = true) ∧
      (successNotSkipped r2 = false → w2 = []) ∧
      (successNotSkipped r3 = true →
        ∃ m3, w3 = [Event.statusWrite m3] ∧ m3.upload_status.instagram = true) ∧
      (successNotSkipped r3 = false → w3 = []) ∧
      (successNotSkipped r4 = true →
        ∃ m4, w4 = [Event.statusWrite m4] ∧ m4.upload_status.x = true) ∧
      (successNotSkipped r4 = false → w4 = []) := by
  refine ⟨_, _, _, _, _, _, _, _, _, rfl, rfl, ?_, ?_, ?_, ?_, ?_, ?_, ?_, ?_, ?_⟩
  · intro e he
    revert he
    split <;> simp_all
  · intro h
    rw [show (publishStep (uploadToYouTube env.ytAttempt m) Platform.youtube m).2
          = [Event.statusWrite (markDone Platform.youtube m)] by
        rw [publishStep_of_true _ _ _ h]]
    exact ⟨_, rfl, rfl⟩
  · intro h
    rw [publishStep_of_false _ _ _ h]
  · intro h
    rw [show (publishStep (uploadToTikTok env.ttAttempt
            (publishStep (uploadToYouTube env.ytAttempt m) Platform.youtube m).1) Platform.tiktok
            (publishStep (uploadToYouTube env.ytAttempt m) Platform.youtube m).1).2
          = [Event.statusWrite (markDone Platform.tiktok
            (publishStep (uploadToYouTube env.ytAttempt m) Platform.youtube m).1)] by
        rw [publishStep_of_true _ _ _ h]]
    exact ⟨_, rfl, rfl⟩
  · intro h
    rw [publishStep_of_false _ _ _ h]
  · intro h
    rw [show (publishStep (uploadToInstagram env.igAttempt
            (publishStep (uploadToTikTok env.ttAttempt
              (publishStep (uploadToYouTube env.ytAttempt m) Platform.youtube m).1) Platform.tiktok
              (publishStep (uploadToYouTube env.ytAttempt m) Platform.youtube m).1).1)
            Platform.instagram
            (publishStep (uploadToTikTok env.ttAttempt
              (publishStep (uploadToYouTube env.ytAttempt m) Platform.youtube m).1) Platform.tiktok
              (publishStep (uploadToYouTube env.ytAttempt m) Platform.youtube m).1).1).2
          = [Event.statusWrite (markDone Platform.instagram
            (publishStep (uploadToTikTok env.ttAttempt
              (publishStep (uploadToYouTube env.ytAttempt m) Platform.youtube m).1) Platform.tiktok
              (publishStep (uploadToYouTube env.ytAttempt m) Platform.youtube m).1).1)] by
        rw [publishStep_of_true _ _ _ h]]
    exact ⟨_, rfl, rfl⟩
  · intro h
    rw [publishStep_of_false _ _ _ h]
  · intro h
    rw [publishStep_of_true _ _ _ h]
    exact ⟨_, rfl, rfl⟩
  · intro h
    rw [publishStep_of_false _ _ _ h]

/-- The write segment emitted by `publishStep` never contains a publisher
invocation event. -/
theorem count_publishCall_publishStep (r : UploadResult) (q p : Platform) (m : PostMetadata) :
    ((publishStep r q m).2).count (Event.publishCall p) = 0 := by
  unfold publishStep
  split <;> simp

/-- The write segment emitted by `publishStep` never contains the
move-to-done event. -/
theorem count_moveToDone_publishStep (r : UploadResult) (q : Platform) (m : PostMetadata) :
    ((publishStep r q m).2).count Event.moveToDone = 0 := by
  unfold publishStep
  split <;> simp

/-- Claim C3: an exception inside a platform's publish attempt is captured
into that platform's result as success=false, skipped=false with the error
message as detail (for each publisher, whenever it actually attempts), and
a failure never prevents the later platforms from being invoked: in every
run each platform's publisher is invoked exactly once, whatever the
attempt outcomes are. -/
theorem claim_C3 (xc : Option XConfig) (xe : Bool) (env : AttemptEnv) (m : PostMetadata) :
    (∀ msg, m.upload_status.youtube = false →
      uploadToYouTube (some msg) m =
        { platform := Platform.youtube, success := false, skipped := false,
          error := some msg }) ∧
    (∀ msg, m.upload_status.tiktok = false →
      uploadToTikTok (some msg) m =
        { platform := Platform.tiktok, success := false, skipped := false,
          error := some msg }) ∧
    (∀ msg, m.upload_status.instagram = false →
      uploadToInstagram (some msg) m =
        { platform := Platform.instagram, success := false, skipped := false,
          error := some msg }) ∧
    (∀ msg c, m.upload_status.x = false →
      uploadToX (some c) true (some msg) m =
        { platform := Platform.x, success := false, skipped := false,
          error := some msg }) ∧
    (∀ p : Platform, (processItem xc xe env m).trace.count (Event.publishCall p) = 1) := by
  refine ⟨?_, ?_, ?_, ?_, ?_⟩
  · intro msg h
    simp [uploadToYouTube, h]
  · intro msg h
    simp [uploadToTikTok, h]
  · intro msg h
    simp [uploadToInstagram, h]
  · intro msg c h
    simp [uploadToX, h]
  · intro p
    simp only [processItem]
    cases p <;>
      simp [List.count_cons, List.count_append, count_publishCall_publishStep,
        apply_ite (List.count (α := Event))] <;>
      split <;> simp

/-- Claim C4: for every processed item, the move-to-done finalisation is
performed exactly once when `allSuccess` holds, and zero times (no move of
the item's files) when it does not. -/
theorem claim_C4 (xc : Option XConfig) (xe : Bool) (env : AttemptEnv) (m : PostMetadata) :
    ((processItem xc xe env m).allSuccess = true →
      (processItem xc xe env m).trace.count Event.moveToDone = 1) ∧
    ((processItem xc xe env m).allSuccess = false →
      (processItem xc xe env m).trace.count Event.moveToDone = 0) := by
  constructor <;>
  · intro h
    simp only [processItem] at h ⊢
    simp [h, List.count_cons, List.count_append, count_moveToDone_publishStep]

/-- How one post-publish block changes a platform flag: the flag of the
stepped platform becomes true exactly on a successful non-skipped result,
every other flag is unchanged. -/
theorem publishStep_fst_get (r : UploadResult) (q p : Platform) (m : PostMetadata) :
    ((publishStep r q m).1).upload_status.get p =
      (m.upload_status.get p || (decide (p = q) && successNotSkipped r)) := by
  unfold publishStep successNotSkipped
  split
  · rename_i h
    by_cases hpq : p = q
    · subst hpq
      simp [markDone_get_self, h]
    · simp [markDone_get_other q p m hpq, hpq]
  · rename_i h
    simp [Bool.eq_false_iff.mpr h]

/-- The YouTube publisher always reports platform youtube. -/
theorem uploadToYouTube_platform (a : AttemptOutcome) (m : PostMetadata) :
    (uploadToYouTube a m).platform = Platform.youtube := by
  unfold uploadToYouTube
  split
  · rfl
  · cases a <;> rfl

/-- The TikTok publisher always reports platform tiktok. -/
theorem uploadToTikTok_platform (a : AttemptOutcome) (m : PostMetadata) :
    (uploadToTikTok a m).platform = Platform.tiktok := by
  unfold uploadToTikTok
  split
  · rfl
  · cases a <;> rfl

/-- The Instagram publisher always reports platform instagram. -/
theorem uploadToInstagram_platform (a : AttemptOutcome) (m : PostMetadata) :
    (uploadToInstagram a m).platform = Platform.instagram := by
  unfold uploadToInstagram
  split
  · rfl
  · cases a <;> rfl

/-- The X publisher always reports platform x. -/
theorem uploadToX_platform (c : Option XConfig) (xe : Bool) (a : AttemptOutcome)
    (m : PostMetadata) : (uploadToX c xe a m).platform = Platform.x := by
  unfold uploadToX
  split
  · rfl
  · split
    · rfl
    · cases a <;> rfl

/-- Claim C9: the status vector is only ever raised, and only by success.
For every platform, the flag after the run is the flag before the run
or-ed with "that platform's result was successful and not skipped"; hence
a failed or skipped outcome leaves every flag unchanged, and a flag is
only moved from false to true, on a successful non-skipped outcome. -/
theorem claim_C9 (xc : Option XConfig) (xe : Bool) (env : AttemptEnv) (m : PostMetadata) :
    ∃ r1 r2 r3 r4 : UploadResult,
      (processItem xc xe env m).results = [r1, r2, r3, r4] ∧
      r1.platform = Platform.youtube ∧ r2.platform = Platform.tiktok ∧
      r3.platform = Platform.instagram ∧ r4.platform = Platform.x ∧
      (∀ p : Platform,
        (processItem xc xe env m).finalMetadata.upload_status.get p =
          (m.upload_status.get p ||
            successNotSkipped
              (match p with
                | Platform.youtube => r1
                | Platform.tiktok => r2
                | Platform.instagram => r3
                | Platform.x => r4))) := by
  refine ⟨_, _, _, _, rfl, uploadToYouTube_platform _ _, uploadToTikTok_platform _ _,
    uploadToInstagram_platform _ _, uploadToX_platform _ _ _ _, ?_⟩
  intro p
  show ((publishStep _ Platform.x _).1).upload_status.get p = _
  rw [publishStep_fst_get, publishStep_fst_get, publishStep_fst_get, publishStep_fst_get]
  cases p <;> simp

/-- Claim C8: running the pipeline on an item whose status vector is
already all-true yields only skipped outcomes, overall success, no durable
status write, and an unchanged status vector. -/
theorem claim_C8 (xc : Option XConfig) (xe : Bool) (env : AttemptEnv) (m : PostMetadata)
    (h : m.upload_status = { youtube := true, tiktok := true, instagram := true, x := true }) :
    (∀ r ∈ (processItem xc xe env m).results, r.skipped = true) ∧
    (processItem xc xe env m).allSuccess = true ∧
    (∀ mm, Event.statusWrite mm ∉ (processItem xc xe env m).trace) ∧
    (processItem xc xe env m).finalMetadata = m := by
  obtain ⟨title, description, tags, st⟩ := m
  simp only [PostMetadata.mk.injEq] at h
  obtain rfl : st = { youtube := true, tiktok := true, instagram := true, x := true } := h
  cases xe <;> rcases xc with _ | c <;>
    simp [processItem, uploadToYouTube, uploadToTikTok, uploadToInstagram, uploadToX,
      publishStep, isAllSuccess, successNotSkipped]

/-- Claim C6: a skip because the platform is already marked done reports
success=true with skipped=true (for each publisher), while a skip because
X is administratively disabled reports success=false with skipped=true;
the two skip reasons always carry opposite success polarity. -/
theorem claim_C6 (a : AttemptOutcome) (m : PostMetadata) (xc : Option XConfig) (xe : Bool) :
    (m.upload_status.youtube = true →
      uploadToYouTube a m =
        { platform := Platform.youtube, success := true, skipped := true }) ∧
    (m.upload_status.tiktok = true →
      uploadToTikTok a m =
        { platform := Platform.tiktok, success := true, skipped := true }) ∧
    (m.upload_status.instagram = true →
      uploadToInstagram a m =
        { platform := Platform.instagram, success := true, skipped := true }) ∧
    (xe = true → xc.isSome = true → m.upload_status.x = true →
      uploadToX xc xe a m =
        { platform := Platform.x, success := true, skipped := true }) ∧
    ((xe = false ∨ xc = none) →
      uploadToX xc xe a m =
        { platform := Platform.x, success := false, skipped := true }) := by
  refine ⟨?_, ?_, ?_, ?_, ?_⟩
  · intro h
    simp [uploadToYouTube, h]
  · intro h
    simp [uploadToTikTok, h]
  · intro h
    simp [uploadToInstagram, h]
  · intro hxe hc h
    subst hxe
    have hne : ¬xc = none := by
      intro hn
      rw [hn] at hc
      exact absurd hc (by simp)
    simp [uploadToX, h, Option.isNone_iff_eq_none, hne]
  · rintro (rfl | rfl) <;> simp [uploadToX]

/-- Tweet text composition and truncation, from src/services/x.ts lines
65-67: the posted text is title, a blank line, then description, truncated
to its first 277 characters plus an ellipsis when longer than 280. -/
def composeTweetText (metadata : PostMetadata) : String :=
  let tweetText := metadata.title ++ "\n\n" ++ metadata.description
  if tweetText.length > 280 then (tweetText.take 277) ++ "..." else tweetText

/-- Length of a string prefix. -/
theorem string_length_take (s : String) (n : Nat) : (s.take n).length = min n s.length := by
  rw [String.take_eq]
  show (s.data.take n).length = min n s.length
  rw [List.length_take, String.length_data]

/-- Claim C10: the text posted to X is title, blank line, description when
that is at most 280 characters long, and otherwise its first 277
characters followed by an ellipsis; in both cases the posted text is at
most 280 characters long. -/
theorem claim_C10 (m : PostMetadata) :
    (composeTweetText m =
      (if (m.title ++ "\n\n" ++ m.description).length ≤ 280 then
        m.title ++ "\n\n" ++ m.description
      else ((m.title ++ "\n\n" ++ m.description).take 277) ++ "...")) ∧
    (composeTweetText m).length ≤ 280 := by
  unfold composeTweetText
  by_cases h : (m.title ++ "\n\n" ++ m.description).length > 280
  · rw [if_pos h, if_neg (by omega)]
    refine ⟨rfl, ?_⟩
    rw [String.length_append, string_length_take]
    have h3 : ("..." : String).length = 3 := rfl
    omega
  · rw [if_neg h, if_pos (by omega)]
    exact ⟨rfl, by omega⟩

/-- The process environment: a partial map from variable name to value. -/
def EnvMap := String → Option String

/-- JavaScript String.prototype.trim, modelled on the character list:
drop leading and trailing whitespace. -/
def jsTrim (s : String) : String :=
  String.mk (((s.data.dropWhile Char.isWhitespace).reverse.dropWhile Char.isWhitespace).reverse)

/-- Optional environment variable lookup, from src/config/env.ts
(`getOptionalEnv`, lines 29-35): an unset or blank value counts as absent,
a present value is returned trimmed. -/
def getOptionalEnv (env : EnvMap) (key : String) : Option String :=
  match env key with
  | none => none
  | some value => if jsTrim value = "" then none else some (jsTrim value)

/-- Required environment variable lookup, from src/config/env.ts
(`getRequiredEnv`, lines 18-24): an unset or blank value is a fatal
error. -/
def getRequiredEnv (env : EnvMap) (key : String) : Except String String :=
  match env key with
  | none => Except.error ("missing required env var: " ++ key)
  | some value =>
    if jsTrim value = "" then Except.error ("missing required env var: " ++ key)
    else Except.ok (jsTrim value)

/-- Google Drive credentials, from src/types/index.ts (`DriveConfig`). -/
structure DriveConfig where
  credentialsJson : String
  pendingFolderId : String
  doneFolderId : String
deriving DecidableEq, Repr

/-- YouTube credentials, from src/types/index.ts (`YouTubeConfig`). -/
structure YouTubeConfig where
  clientId : String
  clientSecret : String
  refreshToken : String
deriving DecidableEq, Repr

/-- TikTok credentials, from src/types/index.ts (`TikTokConfig`). -/
structure TikTokConfig where
  clientKey : String
  clientSecret : String
  refreshToken : String
deriving DecidableEq, Repr

/-- Instagram credentials, from src/types/index.ts (`InstagramConfig`). -/
structure InstagramConfig where
  accessToken : String
  accountId : String
deriving DecidableEq, Repr

/-- Mail credentials, from src/types/index.ts (`MailConfig`). -/
structure MailConfig where
  user : String
  pass : String
  toAddress : String
deriving DecidableEq, Repr

/-- Whole application configuration, from src/types/index.ts
(`AppConfig`). -/
structure AppConfig where
  drive : DriveConfig
  youtube : YouTubeConfig
  tiktok : TikTokConfig
  instagram : InstagramConfig
  x : Option XConfig
  mail : MailConfig
  isXEnabled : Bool
deriving DecidableEq, Repr

/-- From src/config/env.ts (`loadDriveConfig`). -/
def loadDriveConfig (env : EnvMap) : Except String DriveConfig := do
  let credentialsJson ← getRequiredEnv env "GDRIVE_CREDENTIALS_JSON"
  let pendingFolderId ← getRequiredEnv env "GDRIVE_PENDING_FOLDER_ID"
  let doneFolderId ← getRequiredEnv env "GDRIVE_DONE_FOLDER_ID"
  return { credentialsJson := credentialsJson, pendingFolderId := pendingFolderId,
           doneFolderId := doneFolderId }

/-- From src/config/env.ts (`loadYouTubeConfig`). -/
def loadYouTubeConfig (env : EnvMap) : Except String YouTubeConfig := do
  let clientId ← getRequiredEnv env "YOUTUBE_CLIENT_ID"
  let clientSecret ← getRequiredEnv env "YOUTUBE_CLIENT_SECRET"
  let refreshToken ← getRequiredEnv env "YOUTUBE_REFRESH_TOKEN"
  return { clientId := clientId, clientSecret := clientSecret, refreshToken := refreshToken }

/-- From src/config/env.ts (`loadTikTokConfig`). -/
def loadTikTokConfig (env : EnvMap) : Except String TikTokConfig := do
  let clientKey ← getRequiredEnv env "TIKTOK_CLIENT_KEY"
  let clientSecret ← getRequiredEnv env "TIKTOK_CLIENT_SECRET"
  let refreshToken ← getRequiredEnv env "TIKTOK_REFRESH_TOKEN"
  return { clientKey := clientKey, clientSecret := clientSecret, refreshToken := refreshToken }

/-- From src/config/env.ts (`loadInstagramConfig`). -/
def loadInstagramConfig (env : EnvMap) : Except String InstagramConfig := do
  let accessToken ← getRequiredEnv env "IG_ACCESS_TOKEN"
  let accountId ← getRequiredEnv env "IG_ACCOUNT_ID"
  return { accessToken := accessToken, accountId := accountId }

/-- From src/config/env.ts (`loadMailConfig`). -/
def loadMailConfig (env : EnvMap) : Except String MailConfig := do
  let user ← getRequiredEnv env "MAIL_USER"
  let pass ← getRequiredEnv env "MAIL_PASS"
  let toAddress ← getRequiredEnv env "MAIL_TO"
  return { user := user, pass := pass, toAddress := toAddress }

/-- X credential loading, from src/config/env.ts (`loadXConfig`, lines
84-101): all four keys present yields a config; otherwise the config is
null, with a warning (second component) exactly when at least one key is
present. -/
def loadXConfig (env : EnvMap) : Option XConfig × Bool :=
  let apiKey := getOptionalEnv env "X_API_KEY"
  let apiSecret := getOptionalEnv env "X_API_SECRET"
  let accessToken := getOptionalEnv env "X_ACCESS_TOKEN"
  let accessTokenSecret := getOptionalEnv env "X_ACCESS_TOKEN_SECRET"
  match apiKey, apiSecret, accessToken, accessTokenSecret with
  | some a, some s, some t, some u =>
    (some { apiKey := a, apiSecret := s, accessToken := t, accessTokenSecret := u }, false)
  | _, _, _, _ =>
    (none,
      decide (0 < ([apiKey, apiSecret, accessToken, accessTokenSecret].filterMap id).length))

/-- Whole configuration loading, from src/config/env.ts (`loadConfig`,
lines 117-137): every platform's credentials are required except X, whose
absence only disables X (`isXEnabled` is derived from the X config being
non-null). -/
def loadConfig (env : EnvMap) : Except String AppConfig := do
  let drive ← loadDriveConfig env
  let youtube ← loadYouTubeConfig env
  let tiktok ← loadTikTokConfig env
  let instagram ← loadInstagramConfig env
  let xres := loadXConfig env
  let mail ← loadMailConfig env
  return { drive := drive, youtube := youtube, tiktok := tiktok, instagram := instagram,
           x := xres.1, mail := mail, isXEnabled := xres.1.isSome }

/-- Claim C7: when only 1, 2 or 3 of the four X credentials are present
and non-blank, configuration loading treats X exactly as when none is
present - the X config is null - but additionally emits a warning; when
all four are present, X is enabled. In every successfully loaded
configuration, `x` is the loaded X config and `isXEnabled` is its
non-nullness, so 1-3 present credentials give `x = none` and
`isXEnabled = false` without an error. -/
theorem claim_C7 (env : EnvMap) :
    ((1 ≤ ([getOptionalEnv env "X_API_KEY", getOptionalEnv env "X_API_SECRET",
        getOptionalEnv env "X_ACCESS_TOKEN",
        getOptionalEnv env "X_ACCESS_TOKEN_SECRET"].filterMap id).length →
      ([getOptionalEnv env "X_API_KEY", getOptionalEnv env "X_API_SECRET",
        getOptionalEnv env "X_ACCESS_TOKEN",
        getOptionalEnv env "X_ACCESS_TOKEN_SECRET"].filterMap id).length ≤ 3 →
      loadXConfig env = (none, true)) ∧
    (([getOptionalEnv env "X_API_KEY", getOptionalEnv env "X_API_SECRET",
        getOptionalEnv env "X_ACCESS_TOKEN",
        getOptionalEnv env "X_ACCESS_TOKEN_SECRET"].filterMap id).length = 0 →
      loadXConfig env = (none, false)) ∧
    (([getOptionalEnv env "X_API_KEY", getOptionalEnv env "X_API_SECRET",
        getOptionalEnv env "X_ACCESS_TOKEN",
        getOptionalEnv env "X_ACCESS_TOKEN_SECRET"].filterMap id).length = 4 →
      (loadXConfig env).1.isSome = true ∧ (loadXConfig env).2 = false)) ∧
    (∀ cfg, loadConfig env = Except.ok cfg →
      cfg.x = (loadXConfig env).1 ∧ cfg.isXEnabled = (loadXConfig env).1.isSome) := by
  constructor
  · cases h1 : getOptionalEnv env "X_API_KEY" <;>
      cases h2 : getOptionalEnv env "X_API_SECRET" <;>
      cases h3 : getOptionalEnv env "X_ACCESS_TOKEN" <;>
      cases h4 : getOptionalEnv env "X_ACCESS_TOKEN_SECRET" <;>
      simp [loadXConfig, h1, h2, h3, h4]
  · intro cfg h
    simp only [loadConfig, bind, Except.bind] at h
    split at h
    case h_1 => exact Except.noConfusion h
    split at h
    case h_1 => exact Except.noConfusion h
    split at h
    case h_1 => exact Except.noConfusion h
    split at h
    case h_1 => exact Except.noConfusion h
    split at h
    case h_1 => exact Except.noConfusion h
    obtain rfl := (Except.ok.injEq _ _).mp h
    exact ⟨rfl, rfl⟩

/-- Parsed JSON values (the result of JSON.parse), for the metadata
validation of src/services/drive.ts. Numbers are modelled as integers. -/
inductive JValue
  | null
  | bool (b : Bool)
  | num (n : Int)
  | str (s : String)
  | arr (elems : List JValue)
  | obj (fields : List (String × JValue))

/-- Property lookup on a parsed JSON value: a missing key or a non-object
receiver gives undefined (`none`). -/
def jGet (v : JValue) (key : String) : Option JValue :=
  match v with
  | JValue.obj fields =>
    match fields.find? (fun f => f.1 == key) with
    | some f => some f.2
    | none => none
  | _ => none

/-- JavaScript truthiness of a possibly-absent JSON value. -/
def jTruthy : Option JValue → Bool
  | none => false
  | some JValue.null => false
  | some (JValue.bool b) => b
  | some (JValue.num n) => decide (n ≠ 0)
  | some (JValue.str s) => decide (s ≠ "")
  | some (JValue.arr _) => true
  | some (JValue.obj _) => true

/-- typeof v === 'string'. -/
def jIsString : Option JValue → Bool
  | some (JValue.str _) => true
  | _ => false

/-- Array.isArray(v). -/
def jIsArray : Option JValue → Bool
  | some (JValue.arr _) => true
  | _ => false

/-- typeof v === 'object' (true for objects, arrays and null). -/
def jIsObjectType : Option JValue → Bool
  | some (JValue.obj _) => true
  | some (JValue.arr _) => true
  | some JValue.null => true
  | _ => false

/-- Reading a parsed JSON value as a string. -/
def jAsString : JValue → String
  | JValue.str s => s
  | _ => ""

/-- Metadata validation, from src/services/drive.ts (`fetchJsonContent`,
lines 63-89): title and description must be truthy strings, tags must be
an array, upload_status must be a truthy object; any violation throws
(modelled as `Except.error`); on success the record is returned, its four
status flags read by truthiness. -/
def fetchJsonContent (data : JValue) : Except String PostMetadata :=
  if !(jTruthy (jGet data "title")) || !(jIsString (jGet data "title")) then
    Except.error "JSON format error: title"
  else if !(jTruthy (jGet data "description")) || !(jIsString (jGet data "description")) then
    Except.error "JSON format error: description"
  else if !(jIsArray (jGet data "tags")) then
    Except.error "JSON format error: tags"
  else if !(jTruthy (jGet data "upload_status")) ||
      !(jIsObjectType (jGet data "upload_status")) then
    Except.error "JSON format error: upload_status"
  else
    Except.ok
      { title := (match jGet data "title" with | some v => jAsString v | none => "")
        description := (match jGet data "description" with | some v => jAsString v | none => "")
        tags := (match jGet data "tags" with | some (JValue.arr es) => es.map jAsString | _ => [])
        upload_status :=
          (match jGet data "upload_status" with
            | some st =>
              { youtube := jTruthy (jGet st "youtube")
                tiktok := jTruthy (jGet st "tiktok")
                instagram := jTruthy (jGet st "instagram")
                x := jTruthy (jGet st "x") }
            | none => { youtube := false, tiktok := false, instagram := false, x := false }) }

/-- A video file of the pending folder. File names are modelled by their
base name (the extension stripping of the source is elided). -/
structure Mp4File where
  fileId : String
  baseName : String

/-- A metadata file of the pending folder, with its parsed JSON content. -/
structure JsonFile where
  fileId : String
  baseName : String
  parsed : JValue

/-- A matched video/metadata pair, from src/types/index.ts (`FilePair`). -/
structure FilePair where
  videoFileId : String
  jsonFileId : String
  videoFileName : String
  jsonFileName : String
  metadata : PostMetadata

/-- Pairing loop, from src/services/drive.ts (`fetchFilePairs`, lines
94-147): for each mp4 in order, find the json with the same base name;
unmatched mp4s are skipped with a warning; each matched pair's metadata is
fetched and validated, and a validation error escapes the whole function
(the loop contains no catch). -/
def fetchFilePairs (mp4Files : List Mp4File) (jsonFiles : List JsonFile) :
    Except String (List FilePair) :=
  match mp4Files with
  | [] => Except.ok []
  | mp4File :: rest =>
    match jsonFiles.find? (fun j => j.baseName == mp4File.baseName) with
    | some matchingJson =>
      match fetchJsonContent matchingJson.parsed with
      | Except.error e => Except.error e
      | Except.ok metadata =>
        match fetchFilePairs rest jsonFiles with
        | Except.error e => Except.error e
        | Except.ok restPairs =>
          Except.ok
            ({ videoFileId := mp4File.fileId, jsonFileId := matchingJson.fileId,
               videoFileName := mp4File.baseName, jsonFileName := matchingJson.baseName,
               metadata := metadata } :: restPairs)
    | none => fetchFilePairs rest jsonFiles

/-- Per-item external outcomes: whether the video download throws, plus
the per-platform attempt outcomes. -/
structure ItemEnv where
  download : Option String
  attempts : AttemptEnv

/-- Observable events of a whole batch run. -/
inductive BatchEvent
  | itemStarted (videoFileName : String)
  | itemEvent (e : Event)
  | itemFailed (videoFileName : String)
deriving DecidableEq, Repr

/-- Result of a batch run: the process exit code and the event trace. -/
structure BatchRun where
  exitCode : Nat
  trace : List BatchEvent
deriving DecidableEq, Repr

/-- One iteration of the per-item loop of `main` (src/index.ts lines
75-164), inside the per-item try/catch: an exception while downloading the
video is caught at the item boundary and logged, and the batch continues;
otherwise the item runs through the publish pipeline. -/
def runItem (xc : Option XConfig) (xe : Bool) (ienv : ItemEnv) (pair : FilePair) :
    List BatchEvent :=
  match ienv.download with
  | some _ => [BatchEvent.itemFailed pair.videoFileName]
  | none =>
    BatchEvent.itemStarted pair.videoFileName ::
      (processItem xc xe ienv.attempts pair.metadata).trace.map BatchEvent.itemEvent

/-- The per-item loop of `main`, consuming one `ItemEnv` per item. -/
def runItemList (xc : Option XConfig) (xe : Bool) (ienvs : Nat → ItemEnv) (i : Nat)
    (pairs : List FilePair) : List BatchEvent :=
  match pairs with
  | [] => []
  | pair :: rest => runItem xc xe (ienvs i) pair ++ runItemList xc xe ienvs (i + 1) rest

/-- The batch skeleton of `main` (src/index.ts lines 54-177): fetch and
validate the file pairs, then process each pair inside a per-item
try/catch; any exception escaping before or outside the per-item loop
reaches the top-level handler, which logs it and exits with code 1; a run
that completes exits with code 0. -/
def runBatch (xc : Option XConfig) (xe : Bool) (ienvs : Nat → ItemEnv)
    (mp4Files : List Mp4File) (jsonFiles : List JsonFile) : BatchRun :=
  match fetchFilePairs mp4Files jsonFiles with
  | Except.error _ => { exitCode := 1, trace := [] }
  | Except.ok pairs => { exitCode := 0, trace := runItemList xc xe ienvs 0 pairs }

/-- If some matched pair's metadata fails validation, the pairing phase as
a whole fails. -/
theorem fetchFilePairs_error_of_bad (mp4Files : List Mp4File) (jsonFiles : List JsonFile)
    (h : ∃ mp4 ∈ mp4Files, ∃ j,
      jsonFiles.find? (fun jf => jf.baseName == mp4.baseName) = some j ∧
      ∃ e, fetchJsonContent j.parsed = Except.error e) :
    ∃ e, fetchFilePairs mp4Files jsonFiles = Except.error e := by
  induction mp4Files with
  | nil => simp at h
  | cons mp4File rest ih =>
    obtain ⟨m, hm, j, hj, e, he⟩ := h
    rcases List.mem_cons.mp hm with rfl | hm
    · exact ⟨e, by unfold fetchFilePairs; simp [hj, he]⟩
    · cases hfind : jsonFiles.find? (fun jf => jf.baseName == mp4File.baseName) with
      | none =>
        obtain ⟨e1, he1⟩ := ih ⟨m, hm, j, hj, e, he⟩
        exact ⟨e1, by unfold fetchFilePairs; simp [hfind, he1]⟩
      | some j0 =>
        cases hfc : fetchJsonContent j0.parsed with
        | error e0 => exact ⟨e0, by unfold fetchFilePairs; simp [hfind, hfc]⟩
        | ok md =>
          obtain ⟨e1, he1⟩ := ih ⟨m, hm, j, hj, e, he⟩
          exact ⟨e1, by unfold fetchFilePairs; simp [hfind, hfc, he1]⟩

/-- A metadata record with a non-string title. -/
def badMetadataJson : JValue :=
  JValue.obj [("title", JValue.num 5), ("description", JValue.str "a description"),
    ("tags", JValue.arr []), ("upload_status", JValue.obj [])]

/-- A well-formed metadata record. -/
def goodMetadataJson : JValue :=
  JValue.obj [("title", JValue.str "a title"), ("description", JValue.str "a description"),
    ("tags", JValue.arr []),
    ("upload_status", JValue.obj [("youtube", JValue.bool false), ("tiktok", JValue.bool false),
      ("instagram", JValue.bool false), ("x", JValue.bool false)])]

/-- A two-item feed whose first matched pair has malformed metadata. -/
def cexMp4Files : List Mp4File :=
  [{ fileId := "v1", baseName := "a" }, { fileId := "v2", baseName := "b" }]

/-- The json files of the two-item feed: item a malformed, item b good. -/
def cexJsonFiles : List JsonFile :=
  [{ fileId := "j1", baseName := "a", parsed := badMetadataJson },
   { fileId := "j2", baseName := "b", parsed := goodMetadataJson }]

/-- Benign per-item environments: downloads succeed, every attempt
succeeds. -/
def cexItemEnvs : Nat → ItemEnv := fun _ =>
  { download := none,
    attempts := { ytAttempt := none, ttAttempt := none, igAttempt := none, xAttempt := none } }

/-- Claim C5 is false on the code: with a feed whose first item has a
malformed metadata record (non-string title) and a perfectly good second
item, the run does not continue to the next work item with an unchanged
exit code - it exits with code 1 and processes nothing, because validation
happens in the pairing phase, before the per-item try/catch. -/
theorem claim_C5_counterexample :
    ¬ ((runBatch none false cexItemEnvs cexMp4Files cexJsonFiles).exitCode = 0 ∧
       BatchEvent.itemStarted "b" ∈
         (runBatch none false cexItemEnvs cexMp4Files cexJsonFiles).trace) := by
  decide

/-- Claim C5 amended: a malformed metadata record (for example a missing
or non-string title) in any matched pair is fatal for the whole batch, not
just for that item: the validation error is raised while the file pairs
are being collected, before the per-item loop, so it reaches the top-level
handler and the process exits with code 1 having processed no work item at
all. -/
theorem claim_C5 (xc : Option XConfig) (xe : Bool) (ienvs : Nat → ItemEnv)
    (mp4Files : List Mp4File) (jsonFiles : List JsonFile)
    (h : ∃ mp4 ∈ mp4Files, ∃ j,
      jsonFiles.find? (fun jf => jf.baseName == mp4.baseName) = some j ∧
      ∃ e, fetchJsonContent j.parsed = Except.error e) :
    (runBatch xc xe ienvs mp4Files jsonFiles).exitCode = 1 ∧
    (runBatch xc xe ienvs mp4Files jsonFiles).trace = [] := by
  obtain ⟨e, he⟩ := fetchFilePairs_error_of_bad mp4Files jsonFiles h
  unfold runBatch
  rw [he]
  exact ⟨rfl, rfl⟩

/-- Witness for the amended claim C5 at the concrete two-item feed. -/
theorem claim_C5_witness :
    (runBatch none false cexItemEnvs cexMp4Files cexJsonFiles).exitCode = 1 ∧
    (runBatch none false cexItemEnvs cexMp4Files cexJsonFiles).trace = [] :=
  claim_C5 none false cexItemEnvs cexMp4Files cexJsonFiles
    ⟨{ fileId := "v1", baseName := "a" }, List.mem_cons_self _ _,
     { fileId := "j1", baseName := "a", parsed := badMetadataJson }, rfl,
     "JSON format error: title", rfl⟩

/-- A metadata record with every platform already marked done. -/
def allDoneMetadata : PostMetadata :=
  { title := "a title", description := "a description", tags := [],
    upload_status := { youtube := true, tiktok := true, instagram := true, x := true } }

/-- Attempt environment in which every network call would succeed. -/
def noFailureAttempts : AttemptEnv :=
  { ytAttempt := none, ttAttempt := none, igAttempt := none, xAttempt := none }

/-- Witness for claim C8 at a concrete all-done item with X disabled. -/
theorem claim_C8_witness :
    allDoneMetadata.upload_status =
        { youtube := true, tiktok := true, instagram := true, x := true } ∧
    ((∀ r ∈ (processItem none false noFailureAttempts allDoneMetadata).results,
        r.skipped = true) ∧
      (processItem none false noFailureAttempts allDoneMetadata).allSuccess = true ∧
      (∀ mm, Event.statusWrite mm ∉
        (processItem none false noFailureAttempts allDoneMetadata).trace) ∧
      (processItem none false noFailureAttempts allDoneMetadata).finalMetadata =
        allDoneMetadata) :=
  ⟨rfl, claim_C8 none false noFailureAttempts allDoneMetadata rfl⟩

end SNS
